import Mathlib

/-!
Verification of the vector-store file synchronization routine of the
`chat_api_doc` repository (sources `sync.py` and `openai_assistant.py`),
against its natural-language specification.

The remote OpenAI services (file storage, vector stores, assistants) are
modelled by explicit environments recording, for each remote call the code
may issue, the response the service returns.  Every operation of the code is
embedded as a Lean function from such an environment to its Python return
value paired with the trace of remote calls it issued, so that frame
properties ("no remote mutation") are statable.
-/

/- ===================== sync.py : clean_filename ===================== -/

/-- The character class of `re.sub(r'[<>:"/\\|?*\x00-\x1f]', '_', text)` in
`clean_filename` (sync.py line 80). -/
def isInvalidChar (c : Char) : Bool :=
  c == '<' || c == '>' || c == ':' || c == '"' || c == '/' || c == '\\' ||
  c == '|' || c == '?' || c == '*' || c.toNat ≤ 31

/-- The substitution pass of `clean_filename`: every character of the
invalid class is replaced by an underscore. -/
def subInvalid (s : List Char) : List Char :=
  s.map fun c => if isInvalidChar c then '_' else c

/-- The strip set of Python `str.strip('. ')` (sync.py line 82). -/
def isStripChar (c : Char) : Bool :=
  c == '.' || c == ' '

/-- Python `s.strip('. ')`: remove the characters of the strip set from both
ends of the string. -/
def pyStrip (s : List Char) : List Char :=
  List.rdropWhile isStripChar (List.dropWhile isStripChar s)

/-- `clean_filename` from sync.py lines 71-86: substitute invalid
characters, strip leading/trailing dots and spaces, then if the result is
longer than 100 characters keep the first 97 and append `"..."`. -/
def clean_filename (s : List Char) : List Char :=
  let t := pyStrip (subInvalid s)
  if t.length > 100 then t.take 97 ++ ['.', '.', '.'] else t

/- ============== openai_assistant.py : remote-call model ============== -/

/-- One remote API call issued by the code, as recorded in a trace.
Constructors mirror the OpenAI client methods used by
`openai_assistant.py`. -/
inductive RemoteCall where
  | retrieveAssistant0
  | createFile
  | createBatch (vsId : String) (ids : List String)
  | listFailed0 (vsId : String)
  | deleteVsFile0 (vsId : String) (fileId : String)
  | deleteFile0 (fileId : String)
  | deleteVs (vsId : String)
  | retrieveVs0 (vsId : String)
  | updateVs0 (vsId : String)
  | listVsFiles0 (vsId : String)
  | createVs0
  | updateAssistant0 (vsIds : List String)
deriving DecidableEq

/-- Whether a remote call mutates remote state (create, update or delete),
as opposed to a pure read (retrieve or list). -/
def isMutation : RemoteCall → Bool
  | RemoteCall.retrieveAssistant0 => false
  | RemoteCall.listFailed0 _ => false
  | RemoteCall.retrieveVs0 _ => false
  | RemoteCall.listVsFiles0 _ => false
  | _ => true

/- ================ openai_assistant.py : upload_file ================= -/

/-- `MAX_RETRIES` constant of `upload_file` (line 218). -/
def MAX_RETRIES : Nat := 3

/-- `BATCH_SIZE` constant of `upload_file` (line 219). -/
def BATCH_SIZE : Nat := 100

/-- What `create_and_poll` reports for one batch: whether the terminal
status is `completed`, and `file_counts.completed`. -/
structure BatchResult where
  completed : Bool
  completedCount : Nat
deriving DecidableEq

/-- Responses of the remote vector-store service during `upload_file`,
keyed by attempt number (the `retry_count` at which the call is made) and,
for batches, the batch index within the attempt.  `failedRes` is the full
paginated result of listing the store's files with `filter="failed"`. -/
structure UploadEnv where
  batchRes : Nat → Nat → BatchResult
  failedRes : Nat → List String

/-- Fuel-based worker for `chunk100`: peels one batch of `BATCH_SIZE` per
unit of fuel.  Any fuel at least the list length yields the full chunking
(see `chunkFuel_congr`); the fuel only makes the recursion structural. -/
def chunkFuel : Nat → List String → List (List String)
  | _, [] => []
  | 0, x :: xs => [x :: xs]
  | f + 1, x :: xs =>
    ((x :: xs).take BATCH_SIZE) :: chunkFuel f ((x :: xs).drop BATCH_SIZE)

/-- The batches formed by `for i in range(0, len(file_ids), BATCH_SIZE):
batch = file_ids[i:i + BATCH_SIZE]` (lines 251-252). -/
def chunk100 (l : List String) : List (List String) :=
  chunkFuel l.length l

/-- One attempt's batch-submission loop (lines 251-267): submit each batch
in order and poll; on `completed` accumulate `file_counts.completed`, on
any other terminal status stop at once (`return False`, modelled as
`none`).  Also returns the trace of `createBatch` calls issued. -/
def runBatches (env : UploadEnv) (vsId : String) (attempt : Nat) :
    List (List String) → Nat → Option Nat × List RemoteCall
  | [], _ => (some 0, [])
  | b :: bs, j =>
    let r := env.batchRes attempt j
    if r.completed then
      let rest := runBatches env vsId attempt bs (j + 1)
      (rest.1.map fun n => r.completedCount + n, RemoteCall.createBatch vsId b :: rest.2)
    else (none, [RemoteCall.createBatch vsId b])

/-- Result of `upload_file`'s retry loop. `success` is the `return True` of
line 294; `batchFailed` the `return False` of line 267; `exhausted n` the
`return False` of line 312, where `n` is the failure count
`total_files - successful_files` reported at line 310; `fallthrough` the
`return False` of line 314, reached when the `while` guard fails. -/
inductive UploadOutcome where
  | success
  | batchFailed
  | exhausted (failCount : Nat)
  | fallthrough
deriving DecidableEq

/-- The boolean `upload_file` actually returns for each outcome. -/
def UploadOutcome.toBool : UploadOutcome → Bool
  | UploadOutcome.success => true
  | _ => false

/-- The `while retry_count < MAX_RETRIES and len(file_ids)` loop of
`upload_file` (lines 248-314).  `fuel` counts the attempts still allowed,
i.e. `MAX_RETRIES - retry_count`; the top-level call passes
`fuel = MAX_RETRIES`, `retry_count = 0`, and every recursive call keeps
`fuel = MAX_RETRIES - retry_count`, so running out of fuel is exactly the
guard `retry_count < MAX_RETRIES` failing. -/
def uploadLoop (env : UploadEnv) (vsId : String) (total : Nat) :
    Nat → Nat → Nat → List String → UploadOutcome × List RemoteCall
  | _, _, _, [] => (UploadOutcome.fallthrough, [])
  | 0, _, _, _ :: _ => (UploadOutcome.fallthrough, [])
  | fuel + 1, retry_count, successful, x :: xs =>
    match runBatches env vsId retry_count (chunk100 (x :: xs)) 0 with
    | (none, tr) => (UploadOutcome.batchFailed, tr)
    | (some added, tr) =>
      let successful2 := successful + added
      let failed := env.failedRes retry_count
      let tr2 := tr ++ [RemoteCall.listFailed0 vsId]
      if failed = [] ∧ successful2 = total then (UploadOutcome.success, tr2)
      else if retry_count < MAX_RETRIES - 1 then
        let res := uploadLoop env vsId total fuel (retry_count + 1) successful2 failed
        (res.1, tr2 ++ failed.map (RemoteCall.deleteVsFile0 vsId) ++ res.2)
      else (UploadOutcome.exhausted (total - successful2), tr2)

/-- Whether a single `files.create` call raised. -/
def isErr : Except Unit String → Bool
  | Except.error _ => true
  | Except.ok _ => false

/-- `upload_file` (lines 217-314).  `uploads` pairs each `(url, path)`
entry with the result of its `_upload_single_file` call: the created
remote file id, or an exception.  All uploads run to completion before the
`as_completed` loop re-raises the first observed exception, so every
`createFile` call appears in the trace; any exception aborts the operation
(`Except.error`) before any batch work.  Otherwise the retry loop runs on
the collected file ids. -/
def upload_file (uploads : List (String × Except Unit String))
    (env : UploadEnv) (vsId : String) :
    Except Unit UploadOutcome × List RemoteCall :=
  let stage1Tr := uploads.map fun _ => RemoteCall.createFile
  if uploads.any (fun p => isErr p.2) then (Except.error (), stage1Tr)
  else
    let file_ids := uploads.filterMap fun p => p.2.toOption
    let res := uploadLoop env vsId file_ids.length MAX_RETRIES 0 0 file_ids
    (Except.ok res.1, stage1Tr ++ res.2)

/- ========= openai_assistant.py : empty_files and create_vs ========== -/

/-- One file listed from a vector store: its id and processing status. -/
structure VSFile where
  id : String
  status : String
deriving DecidableEq

/-- Responses of the remote services during `empty_files`.

`assistantVsIds` models `client.beta.assistants.retrieve` followed by the
`tool_resources.file_search` access: `Except.error` when retrieving raises,
`Except.ok none` when `file_search` is `None`, `Except.ok (some ids)`
otherwise.  `deleteVsRes` is `vector_stores.delete` (the `deleted` flag, or
a raised exception); `listVsFilesRes` the full paginated
`vector_stores.files.list`; `delVsFileRes` and `delFileRes` the boolean
results of the helpers `delete_vector_store_file` and `delete_openai_file`
(which catch all their own exceptions); `retrieveVsRes` the status string
from `vector_stores.retrieve`; `updateVsRes` the `vector_stores.update`
call. -/
structure EmptyEnv where
  assistantVsIds : Except Unit (Option (List String))
  deleteVsRes : String → Except Unit Bool
  listVsFilesRes : String → Except Unit (List VSFile)
  delVsFileRes : String → String → Bool
  delFileRes : String → Bool
  retrieveVsRes : String → Except Unit String
  updateVsRes : String → Except Unit Unit

/-- `get_vector_store_ids` (lines 30-41): returns the attached vector-store
ids, or the empty list when `file_search` is disabled or retrieving the
assistant raises any exception. -/
def get_vector_store_ids (env : EmptyEnv) : List String × List RemoteCall :=
  match env.assistantVsIds with
  | Except.error _ => ([], [RemoteCall.retrieveAssistant0])
  | Except.ok none => ([], [RemoteCall.retrieveAssistant0])
  | Except.ok (some ids) => (ids, [RemoteCall.retrieveAssistant0])

/-- Deletion of the non-canonical vector stores (lines 98-106): each extra
store is deleted in order; a raised exception propagates (to the catch of
`empty_files`), a `deleted=False` flag is only logged. -/
def deleteExtras (env : EmptyEnv) : List String → Except Unit Unit × List RemoteCall
  | [] => (Except.ok (), [])
  | vId :: more =>
    match env.deleteVsRes vId with
    | Except.error _ => (Except.error (), [RemoteCall.deleteVs vId])
    | Except.ok _ =>
      let rest := deleteExtras env more
      (rest.1, RemoteCall.deleteVs vId :: rest.2)

/-- The per-file deletion loop of `empty_files` (lines 133-142): for each
listed file, delete it from the vector store then from OpenAI file
storage; failures are accumulated into the two failure lists (in listing
order) without aborting. -/
def deleteFilesLoop (env : EmptyEnv) (vsId : String) :
    List VSFile → (List String × List String) × List RemoteCall
  | [] => (([], []), [])
  | f :: fs =>
    let vsDel := env.delVsFileRes vsId f.id
    let oaDel := env.delFileRes f.id
    let rest := deleteFilesLoop env vsId fs
    ((if vsDel then rest.1.1 else f.id :: rest.1.1,
      if oaDel then rest.1.2 else f.id :: rest.1.2),
     RemoteCall.deleteVsFile0 vsId f.id :: RemoteCall.deleteFile0 f.id :: rest.2)

/-- Result of `empty_files`: `noIndexes` is the early `return True` of
line 96; `cleared s t` the `return True` of line 179 after logging the
`success_count/total` pair `s/t` (line 177); `excFailed` the `return False`
of line 182 when an exception reached the top-level handler. -/
inductive EmptyOutcome where
  | noIndexes
  | cleared (successCount : Nat) (totalCount : Nat)
  | excFailed
deriving DecidableEq

/-- The boolean `empty_files` actually returns for each outcome. -/
def EmptyOutcome.toBool : EmptyOutcome → Bool
  | EmptyOutcome.excFailed => false
  | _ => true

/-- `empty_files` (lines 87-182): discover stores; if none, succeed; delete
the extras; list the canonical store's files; delete each file (and its
backing OpenAI file) best-effort; check expiry and, if not expired,
refresh name and expiry window; then, if any file was `in_progress`, any
per-file deletion failed, or the store was expired, delete the whole
store, counting all files as cleared only if that deletion reports
success.  Any raised exception is caught at the top and yields `False`. -/
def empty_files (env : EmptyEnv) : EmptyOutcome × List RemoteCall :=
  let disc := get_vector_store_ids env
  match disc.1 with
  | [] => (EmptyOutcome.noIndexes, disc.2)
  | vsId :: rest =>
    let extras := deleteExtras env rest
    let tr1 := disc.2 ++ extras.2
    match extras.1 with
    | Except.error _ => (EmptyOutcome.excFailed, tr1)
    | Except.ok _ =>
      match env.listVsFilesRes vsId with
      | Except.error _ => (EmptyOutcome.excFailed, tr1 ++ [RemoteCall.listVsFiles0 vsId])
      | Except.ok files =>
        let isProcessing := files.any fun f => f.status = "in_progress"
        let dels := deleteFilesLoop env vsId files
        let failedVs := dels.1.1
        let failedOa := dels.1.2
        let tr2 := tr1 ++ [RemoteCall.listVsFiles0 vsId] ++ dels.2
        match env.retrieveVsRes vsId with
        | Except.error _ => (EmptyOutcome.excFailed, tr2 ++ [RemoteCall.retrieveVs0 vsId])
        | Except.ok status =>
          let isExpired := status = "expired"
          let tr3 := tr2 ++ [RemoteCall.retrieveVs0 vsId]
          let upd : Except Unit Unit × List RemoteCall :=
            if isExpired then (Except.ok (), [])
            else
              match env.updateVsRes vsId with
              | Except.error _ => (Except.error (), [RemoteCall.updateVs0 vsId])
              | Except.ok _ => (Except.ok (), [RemoteCall.updateVs0 vsId])
          match upd.1 with
          | Except.error _ => (EmptyOutcome.excFailed, tr3 ++ upd.2)
          | Except.ok _ =>
            let successCount := files.length - failedVs.length
            if isProcessing || !failedVs.isEmpty || !failedOa.isEmpty || isExpired then
              match env.deleteVsRes vsId with
              | Except.error _ =>
                  (EmptyOutcome.excFailed, tr3 ++ upd.2 ++ [RemoteCall.deleteVs vsId])
              | Except.ok deletedFlag =>
                  (EmptyOutcome.cleared
                     (if deletedFlag then files.length else successCount) files.length,
                   tr3 ++ upd.2 ++ [RemoteCall.deleteVs vsId])
            else
              (EmptyOutcome.cleared successCount files.length, tr3 ++ upd.2)

/-- Extra responses needed by `create_vs`: the id returned by
`vector_stores.create` and the result of `beta.assistants.update` (either
may raise; `create_vs` has no handler, so a raised exception propagates to
its caller). -/
structure CreateEnv where
  createVsRes : Except Unit String
  updateAssistantRes : Except Unit Unit

/-- `create_vs` (lines 186-210): if the assistant has no vector store,
create one and attach it as the sole search store; if it has several,
narrow the attachment to the first; then delegate to `upload_file` against
the chosen store id. -/
def create_vs (eenv : EmptyEnv) (cenv : CreateEnv)
    (uploads : List (String × Except Unit String)) (uenv : UploadEnv) :
    Except Unit UploadOutcome × List RemoteCall :=
  let disc := get_vector_store_ids eenv
  match disc.1 with
  | [] =>
    match cenv.createVsRes with
    | Except.error _ => (Except.error (), disc.2 ++ [RemoteCall.createVs0])
    | Except.ok newId =>
      match cenv.updateAssistantRes with
      | Except.error _ =>
          (Except.error (),
           disc.2 ++ [RemoteCall.createVs0, RemoteCall.updateAssistant0 [newId]])
      | Except.ok _ =>
          let res := upload_file uploads uenv newId
          (res.1,
           disc.2 ++ [RemoteCall.createVs0, RemoteCall.updateAssistant0 [newId]] ++ res.2)
  | vsId :: rest =>
    match rest with
    | [] =>
      let res := upload_file uploads uenv vsId
      (res.1, disc.2 ++ res.2)
    | _ :: _ =>
      match cenv.updateAssistantRes with
      | Except.error _ => (Except.error (), disc.2 ++ [RemoteCall.updateAssistant0 [vsId]])
      | Except.ok _ =>
        let res := upload_file uploads uenv vsId
        (res.1, disc.2 ++ [RemoteCall.updateAssistant0 [vsId]] ++ res.2)

/- ===================== concrete test environments ==================== -/

/-- An upload environment in which every batch completes with zero counted
files and no file is ever reported failed. -/
def trivialUploadEnv : UploadEnv where
  batchRes := fun _ _ => { completed := true, completedCount := 0 }
  failedRes := fun _ => []

/-- Upload environment: every batch completes counting two files, no file
is ever reported failed. -/
def twoFileUploadEnv : UploadEnv where
  batchRes := fun _ _ => { completed := true, completedCount := 2 }
  failedRes := fun _ => []

/-- Upload environment: every batch completes counting one file, and the
failed-file query reports file `"b"` after attempt 1 only. -/
def retryUploadEnv : UploadEnv where
  batchRes := fun _ _ => { completed := true, completedCount := 1 }
  failedRes := fun a => if a = 0 then ["b"] else []

/-- Upload environment: batches complete counting nothing and file `"a"`
is reported failed after every attempt. -/
def persistFailUploadEnv : UploadEnv where
  batchRes := fun _ _ => { completed := true, completedCount := 0 }
  failedRes := fun _ => ["a"]

/-- Upload environment: every batch polls to a non-completed terminal
status. -/
def abortUploadEnv : UploadEnv where
  batchRes := fun _ _ => { completed := false, completedCount := 0 }
  failedRes := fun _ => []

/-- A benign environment for `empty_files`: the assistant owns the single
store `"vs_a"` holding one completed file `"f1"`; every deletion succeeds
and the store is not expired. -/
def baseEmptyEnv : EmptyEnv where
  assistantVsIds := Except.ok (some ["vs_a"])
  deleteVsRes := fun _ => Except.ok true
  listVsFilesRes := fun _ => Except.ok [{ id := "f1", status := "completed" }]
  delVsFileRes := fun _ _ => true
  delFileRes := fun _ => true
  retrieveVsRes := fun _ => Except.ok "completed"
  updateVsRes := fun _ => Except.ok ()

/-- `baseEmptyEnv`, but the assistant has no vector store attached. -/
def noIndexEmptyEnv : EmptyEnv :=
  { baseEmptyEnv with assistantVsIds := Except.ok (some []) }

/-- `baseEmptyEnv`, but retrieving the assistant raises an exception. -/
def discFailEmptyEnv : EmptyEnv :=
  { baseEmptyEnv with assistantVsIds := Except.error () }

/-- `baseEmptyEnv`, but deleting the file from the store fails and the
destructive store deletion reports `deleted = False`. -/
def delFailEmptyEnv : EmptyEnv :=
  { baseEmptyEnv with
      delVsFileRes := fun _ _ => false
      deleteVsRes := fun _ => Except.ok false }

/-- `baseEmptyEnv`, but the single listed file is still `in_progress`. -/
def processingEmptyEnv : EmptyEnv :=
  { baseEmptyEnv with
      listVsFilesRes := fun _ => Except.ok [{ id := "f1", status := "in_progress" }] }

/-- Create-stage responses: creating a store yields `"vs_new"` and
updating the assistant succeeds. -/
def okCreateEnv : CreateEnv where
  createVsRes := Except.ok "vs_new"
  updateAssistantRes := Except.ok ()

/- ========================== helper lemmas =========================== -/

/-- The first element of a `dropWhile` result fails the predicate. -/
theorem head_false_of_dropWhile (p : Char → Bool) :
    ∀ (l : List Char) (c : Char) (cs : List Char),
      List.dropWhile p l = c :: cs → p c = false := by
  intro l
  induction l with
  | nil => intro c cs h; simp [List.dropWhile] at h
  | cons a t ih =>
    intro c cs h
    rw [List.dropWhile_cons] at h
    by_cases hp : p a
    · rw [if_pos hp] at h
      exact ih c cs h
    · rw [if_neg hp] at h
      cases h
      simpa using hp

/-- Dropping the strip characters from the front of an already
front-and-back stripped list changes nothing. -/
theorem dropWhile_rdropWhile_dropWhile (p : Char → Bool) (s : List Char) :
    List.dropWhile p (List.rdropWhile p (List.dropWhile p s)) =
      List.rdropWhile p (List.dropWhile p s) := by
  rcases h : List.rdropWhile p (List.dropWhile p s) with _ | ⟨c, cs⟩
  · rfl
  · obtain ⟨t, ht⟩ := List.rdropWhile_prefix p (List.dropWhile p s)
    rw [h] at ht
    have hds : List.dropWhile p s = c :: (cs ++ t) := by
      rw [← ht]
      simp
    have hc : p c = false := head_false_of_dropWhile p s c (cs ++ t) hds
    simp [List.dropWhile_cons, hc]

/-- Python `strip` is idempotent. -/
theorem pyStrip_idem (s : List Char) : pyStrip (pyStrip s) = pyStrip s := by
  unfold pyStrip
  rw [dropWhile_rdropWhile_dropWhile, List.rdropWhile_idempotent]

/-- Stripping only removes characters. -/
theorem pyStrip_subset (s : List Char) : pyStrip s ⊆ s := by
  unfold pyStrip
  exact (List.rdropWhile_prefix _ _).subset.trans (List.dropWhile_suffix _).subset

/-- Every character produced by the substitution pass is outside the
invalid class (an underscore is not itself invalid). -/
theorem subInvalid_not_invalid (s : List Char) :
    ∀ c ∈ subInvalid s, isInvalidChar c = false := by
  intro c hc
  simp only [subInvalid, List.mem_map] at hc
  obtain ⟨a, _, rfl⟩ := hc
  by_cases h : isInvalidChar a
  · rw [if_pos h]
    decide
  · rw [if_neg h]
    simpa using h

/-- The substitution pass fixes lists without invalid characters. -/
theorem subInvalid_eq_self (s : List Char) :
    (∀ c ∈ s, isInvalidChar c = false) → subInvalid s = s := by
  induction s with
  | nil => intro _; rfl
  | cons a t ih =>
    intro h
    have ha := h a (List.mem_cons_self a t)
    have ht := ih fun c hc => h c (List.mem_cons_of_mem a hc)
    simp only [subInvalid, List.map_cons] at ht ⊢
    rw [ha]
    simp [ht]

/- ===================== claims about clean_filename ================== -/

/-- C2 counterexample: `clean_filename` is not idempotent.  A label of 101
identical letters is truncated to 97 letters plus `"..."`; a second pass
strips the trailing dots, yielding 97 letters. -/
theorem C2_counterexample :
    clean_filename (clean_filename (List.replicate 101 'a')) ≠
      clean_filename (List.replicate 101 'a') := by decide

/-- C2 (amended): `clean_filename` is idempotent on every input whose
substituted-and-stripped form has at most 100 characters, i.e. whenever no
truncation occurs.  (When truncation occurs, the appended ellipsis is
stripped by a second application, so full idempotence fails.) -/
theorem C2_clean_filename_idem (s : List Char)
    (h : (pyStrip (subInvalid s)).length ≤ 100) :
    clean_filename (clean_filename s) = clean_filename s := by
  have hnot : ¬ (pyStrip (subInvalid s)).length > 100 := by omega
  have h1 : clean_filename s = pyStrip (subInvalid s) := by
    simp only [clean_filename]
    rw [if_neg hnot]
  rw [h1]
  have hsub : subInvalid (pyStrip (subInvalid s)) = pyStrip (subInvalid s) :=
    subInvalid_eq_self _ fun c hc => subInvalid_not_invalid s c (pyStrip_subset _ hc)
  simp only [clean_filename, hsub, pyStrip_idem]
  rw [if_neg hnot]

/-- Witness for `C2_clean_filename_idem` at the two-letter label `"ab"`. -/
theorem C2_clean_filename_idem_witness :
    (pyStrip (subInvalid ['a', 'b'])).length ≤ 100 ∧
    clean_filename (clean_filename ['a', 'b']) = clean_filename ['a', 'b'] :=
  ⟨by decide, C2_clean_filename_idem ['a', 'b'] (by decide)⟩

/-- C3 counterexample: a label of exactly 100 characters (hence ≥ 100) is
not truncated at all — the cut-off condition requires the sanitized length
to strictly exceed 100 — so it is not mapped to its first 97 characters
plus an ellipsis marker. -/
theorem C3_counterexample :
    (List.replicate 100 'a').length ≥ 100 ∧
    clean_filename (List.replicate 100 'a') ≠
      (List.replicate 100 'a').take 97 ++ ['.', '.', '.'] := by decide

/-- C3 (amended): whenever the substituted-and-stripped form of a label
exceeds 100 characters, `clean_filename` returns the first 97 characters
of that sanitized form followed by the three-character ellipsis marker,
for a total length of exactly 100. -/
theorem C3_truncation (s : List Char)
    (h : (pyStrip (subInvalid s)).length > 100) :
    clean_filename s = (pyStrip (subInvalid s)).take 97 ++ ['.', '.', '.'] ∧
    (clean_filename s).length = 100 := by
  have h1 : clean_filename s = (pyStrip (subInvalid s)).take 97 ++ ['.', '.', '.'] := by
    simp only [clean_filename]
    rw [if_pos h]
  refine ⟨h1, ?_⟩
  rw [h1]
  simp only [List.length_append, List.length_take, List.length_cons,
    List.length_nil]
  omega

/-- Witness for `C3_truncation` at a label of 101 identical letters. -/
theorem C3_truncation_witness :
    (pyStrip (subInvalid (List.replicate 101 'a'))).length > 100 ∧
    (clean_filename (List.replicate 101 'a') =
       (pyStrip (subInvalid (List.replicate 101 'a'))).take 97 ++ ['.', '.', '.'] ∧
     (clean_filename (List.replicate 101 'a')).length = 100) :=
  ⟨by decide, C3_truncation (List.replicate 101 'a') (by decide)⟩

/- ================ helper lemmas about the upload model ============== -/

/-- `chunkFuel` is independent of the fuel once the fuel reaches the list
length. -/
theorem chunkFuel_congr : ∀ (f g : Nat) (l : List String),
    l.length ≤ f → l.length ≤ g → chunkFuel f l = chunkFuel g l := by
  intro f
  induction f with
  | zero =>
    intro g l hf hg
    have hl : l = [] := List.length_eq_zero.mp (Nat.le_zero.mp hf)
    subst hl
    cases g <;> rfl
  | succ f ih =>
    intro g l hf hg
    cases l with
    | nil => cases g <;> rfl
    | cons x xs =>
      cases g with
      | zero => simp at hg
      | succ g =>
        simp only [chunkFuel]
        congr 1
        simp only [List.length_cons] at hf hg
        apply ih
        · simp only [List.length_drop, List.length_cons, BATCH_SIZE]
          omega
        · simp only [List.length_drop, List.length_cons, BATCH_SIZE]
          omega

/-- Unfolding equation of `chunk100` on a nonempty list: peel the first
batch and chunk the remainder. -/
theorem chunk100_cons (x : String) (xs : List String) :
    chunk100 (x :: xs) =
      ((x :: xs).take BATCH_SIZE) :: chunk100 ((x :: xs).drop BATCH_SIZE) := by
  show chunkFuel (xs.length + 1) (x :: xs) = _
  simp only [chunkFuel]
  congr 1
  apply chunkFuel_congr
  · simp only [List.length_drop, List.length_cons, BATCH_SIZE]
    omega
  · exact Nat.le_refl _

/-- Flattening the chunking of a list gives the list back, provided the
fuel covers the length. -/
theorem chunkFuel_flatten : ∀ (f : Nat) (l : List String),
    l.length ≤ f → (chunkFuel f l).flatten = l := by
  intro f
  induction f with
  | zero =>
    intro l hf
    have hl : l = [] := List.length_eq_zero.mp (Nat.le_zero.mp hf)
    subst hl
    rfl
  | succ f ih =>
    intro l hf
    cases l with
    | nil => rfl
    | cons x xs =>
      simp only [chunkFuel, List.flatten_cons]
      rw [ih]
      · exact List.take_append_drop _ _
      · simp only [List.length_cons] at hf
        simp only [List.length_drop, List.length_cons, BATCH_SIZE]
        omega

/-- The batches of `chunk100` partition the input: their concatenation is
the input list. -/
theorem chunk100_flatten (l : List String) : (chunk100 l).flatten = l :=
  chunkFuel_flatten l.length l (Nat.le_refl _)

/-- When an attempt's batch loop completes, its trace is exactly one
`createBatch` call per batch, in order. -/
theorem runBatches_some_trace (env : UploadEnv) (vsId : String) (a : Nat) :
    ∀ (bs : List (List String)) (j n : Nat),
      (runBatches env vsId a bs j).1 = some n →
      (runBatches env vsId a bs j).2 = bs.map (RemoteCall.createBatch vsId) := by
  intro bs
  induction bs with
  | nil => intro j n _; rfl
  | cons b rest ih =>
    intro j n h
    simp only [runBatches] at h ⊢
    by_cases hc : (env.batchRes a j).completed
    · simp only [if_pos hc] at h ⊢
      cases ho : (runBatches env vsId a rest (j + 1)).1 with
      | none => rw [ho] at h; simp at h
      | some m =>
        simp only [List.map_cons, List.cons.injEq, true_and]
        exact ih (j + 1) m ho
    · simp only [if_neg hc] at h
      simp at h

/-- When batches `0..k-1` of an attempt complete but batch `k` polls to a
non-completed status, the attempt stops at batch `k`: the result is
`none` and the trace contains exactly the first `k+1` batch submissions. -/
theorem runBatches_fail_trace (env : UploadEnv) (vsId : String) (a : Nat) :
    ∀ (k : Nat) (bs : List (List String)) (j : Nat),
      (∀ i, i < k → (env.batchRes a (j + i)).completed = true) →
      (env.batchRes a (j + k)).completed = false →
      k < bs.length →
      runBatches env vsId a bs j =
        (none, (bs.take (k + 1)).map (RemoteCall.createBatch vsId)) := by
  intro k
  induction k with
  | zero =>
    intro bs j hall hfail hlen
    cases bs with
    | nil => simp at hlen
    | cons b rest =>
      rw [Nat.add_zero] at hfail
      simp only [runBatches, hfail]
      simp
  | succ k ih =>
    intro bs j hall hfail hlen
    cases bs with
    | nil => simp at hlen
    | cons b rest =>
      have hb : (env.batchRes a j).completed = true := by
        have h0 := hall 0 (Nat.succ_pos k)
        rwa [Nat.add_zero] at h0
      simp only [runBatches, hb, if_pos]
      have hrest := ih rest (j + 1)
        (fun i hi => by
          have h2 := hall (i + 1) (by omega)
          have e : j + (i + 1) = j + 1 + i := by omega
          rwa [e] at h2)
        (by
          have e : j + (k + 1) = j + 1 + k := by omega
          rwa [e] at hfail)
        (by simpa using hlen)
      rw [hrest]
      simp [List.take_succ_cons]

/-- One unfolding of the retry loop on a nonempty id list whose batch
stage completes: check the success condition, then either succeed, retry
on the failed ids, or give up. -/
theorem uploadLoop_step (env : UploadEnv) (vsId : String)
    (total fuel retry successful : Nat) (x : String) (xs : List String) (added : Nat)
    (hb : (runBatches env vsId retry (chunk100 (x :: xs)) 0).1 = some added) :
    uploadLoop env vsId total (fuel + 1) retry successful (x :: xs) =
      (let successful2 := successful + added
       let failed := env.failedRes retry
       let tr2 := (runBatches env vsId retry (chunk100 (x :: xs)) 0).2 ++
         [RemoteCall.listFailed0 vsId]
       if failed = [] ∧ successful2 = total then (UploadOutcome.success, tr2)
       else if retry < MAX_RETRIES - 1 then
         let res := uploadLoop env vsId total fuel (retry + 1) successful2 failed
         (res.1, tr2 ++ failed.map (RemoteCall.deleteVsFile0 vsId) ++ res.2)
       else (UploadOutcome.exhausted (total - successful2), tr2)) := by
  rw [uploadLoop.eq_3]
  rw [show runBatches env vsId retry (chunk100 (x :: xs)) 0 =
    (some added, (runBatches env vsId retry (chunk100 (x :: xs)) 0).2) by rw [← hb]]

/- =============== helper lemmas about the empty model ================ -/

/-- Discovery always issues exactly one assistant-retrieve call. -/
theorem get_vector_store_ids_trace (env : EmptyEnv) :
    (get_vector_store_ids env).2 = [RemoteCall.retrieveAssistant0] := by
  unfold get_vector_store_ids
  rcases env.assistantVsIds with _ | (_ | _) <;> rfl

/-- When discovery yields no vector store, `empty_files` returns at once
with only the discovery read in its trace. -/
theorem empty_files_no_ids (env : EmptyEnv)
    (h : (get_vector_store_ids env).1 = []) :
    empty_files env = (EmptyOutcome.noIndexes, [RemoteCall.retrieveAssistant0]) := by
  simp only [empty_files, h, get_vector_store_ids_trace]

/-- The per-file deletion loop never deletes a vector store. -/
theorem deleteFilesLoop_no_deleteVs (env : EmptyEnv) (vsId : String) :
    ∀ (files : List VSFile) (v : String),
      RemoteCall.deleteVs v ∉ (deleteFilesLoop env vsId files).2 := by
  intro files
  induction files with
  | nil => intro v h; simp [deleteFilesLoop] at h
  | cons f fs ih =>
    intro v h
    simp only [deleteFilesLoop, List.mem_cons] at h
    rcases h with h | h | h
    · exact RemoteCall.noConfusion h
    · exact RemoteCall.noConfusion h
    · exact ih v h

/- ====================== claims about upload_file ==================== -/

/-- C1 counterexample: calling `upload_file` with an empty file list
returns `False`, not `True`.  The retry loop guard `len(file_ids)` fails
at once and control falls through to the final `return False` (line 314),
even though no failure occurred and the successful count (0) equals the
total requested (0). -/
theorem C1_counterexample :
    ((upload_file [] trivialUploadEnv "vs_a").1.map UploadOutcome.toBool) =
      Except.ok false := by rfl

/-- C1 (amended): within the retry loop — which is only entered with a
nonempty pending id list — whenever an attempt's batch stage completes,
the failed-file query returns no ids, and the running successful count
equals the total requested, `upload_file` reports success (returns
`True`).  With an empty file list the loop is never entered and the call
returns `False`. -/
theorem C1_success_condition (env : UploadEnv) (vsId : String)
    (total fuel retry successful added : Nat) (ids : List String)
    (hfuel : 0 < fuel) (hids : ids ≠ [])
    (hb : (runBatches env vsId retry (chunk100 ids) 0).1 = some added)
    (hf : env.failedRes retry = [])
    (htot : successful + added = total) :
    (uploadLoop env vsId total fuel retry successful ids).1 = UploadOutcome.success ∧
    UploadOutcome.toBool (uploadLoop env vsId total fuel retry successful ids).1 =
      true := by
  cases fuel with
  | zero => omega
  | succ f =>
    cases ids with
    | nil => exact absurd rfl hids
    | cons x xs =>
      have hsplit : runBatches env vsId retry (chunk100 (x :: xs)) 0 =
          (some added, (runBatches env vsId retry (chunk100 (x :: xs)) 0).2) := by
        rw [← hb]
      rw [uploadLoop.eq_3, hsplit]
      simp [hf, htot]
      rfl

/-- Witness for `C1_success_condition`: two files, one batch completing
with both counted, nothing failed. -/
theorem C1_success_condition_witness :
    (uploadLoop twoFileUploadEnv "vs_a" 2 MAX_RETRIES 0 0 ["a", "b"]).1 =
      UploadOutcome.success ∧
    UploadOutcome.toBool
      (uploadLoop twoFileUploadEnv "vs_a" 2 MAX_RETRIES 0 0 ["a", "b"]).1 = true :=
  C1_success_condition twoFileUploadEnv "vs_a" 2 MAX_RETRIES 0 0 2 ["a", "b"]
    (by decide) (by decide) (by decide) (by decide) (by decide)

/-- C4: when attempt 1 leaves the nonempty set `F` of failed file ids and
attempts remain, the loop deletes exactly the entries of `F` from the
vector store (one `deleteVsFile` call per failed id, in order), attempt 2
resubmits exactly the ids of `F` (its batch submissions partition `F`),
and if attempt 2 ends with no failed ids and the successful count reaches
the total, the overall result is success. -/
theorem C4_retry_failed_only (env : UploadEnv) (vsId : String)
    (total a0 a1 : Nat) (ids F : List String)
    (hids : ids ≠ []) (hFne : F ≠ [])
    (hb0 : (runBatches env vsId 0 (chunk100 ids) 0).1 = some a0)
    (hf0 : env.failedRes 0 = F)
    (hb1 : (runBatches env vsId 1 (chunk100 F) 0).1 = some a1)
    (hf1 : env.failedRes 1 = [])
    (htot : a0 + a1 = total) :
    (uploadLoop env vsId total MAX_RETRIES 0 0 ids).1 = UploadOutcome.success ∧
    (uploadLoop env vsId total MAX_RETRIES 0 0 ids).2 =
      (runBatches env vsId 0 (chunk100 ids) 0).2 ++ [RemoteCall.listFailed0 vsId] ++
        F.map (RemoteCall.deleteVsFile0 vsId) ++
        ((runBatches env vsId 1 (chunk100 F) 0).2 ++ [RemoteCall.listFailed0 vsId]) ∧
    (runBatches env vsId 1 (chunk100 F) 0).2 =
      (chunk100 F).map (RemoteCall.createBatch vsId) ∧
    (chunk100 F).flatten = F := by
  cases ids with
  | nil => exact absurd rfl hids
  | cons x xs =>
    cases F with
    | nil => exact absurd rfl hFne
    | cons y ys =>
      have hstep2 : uploadLoop env vsId total (1 + 1) 1 a0 (y :: ys) =
          (UploadOutcome.success,
           (runBatches env vsId 1 (chunk100 (y :: ys)) 0).2 ++
             [RemoteCall.listFailed0 vsId]) := by
        rw [uploadLoop_step env vsId total 1 1 a0 y ys a1 hb1]
        simp [hf1, htot]
      have hstep1 : uploadLoop env vsId total (2 + 1) 0 0 (x :: xs) =
          (UploadOutcome.success,
           ((runBatches env vsId 0 (chunk100 (x :: xs)) 0).2 ++
              [RemoteCall.listFailed0 vsId]) ++
             (y :: ys).map (RemoteCall.deleteVsFile0 vsId) ++
             ((runBatches env vsId 1 (chunk100 (y :: ys)) 0).2 ++
               [RemoteCall.listFailed0 vsId])) := by
        rw [uploadLoop_step env vsId total 2 0 0 x xs a0 hb0]
        simp only [hf0, Nat.zero_add]
        rw [if_neg (by simp)]
        rw [if_pos (by simp [MAX_RETRIES])]
        rw [hstep2]
      have hM : MAX_RETRIES = 2 + 1 := rfl
      rw [hM, hstep1]
      refine ⟨rfl, by simp, runBatches_some_trace env vsId 1 _ 0 a1 hb1,
        chunk100_flatten _⟩

/-- Witness for `C4_retry_failed_only`: two files, file `"b"` failing on
attempt 1, attempt 2 retrying exactly `"b"` and succeeding. -/
theorem C4_retry_failed_only_witness :
    (uploadLoop retryUploadEnv "vs_a" 2 MAX_RETRIES 0 0 ["a", "b"]).1 =
      UploadOutcome.success ∧
    (uploadLoop retryUploadEnv "vs_a" 2 MAX_RETRIES 0 0 ["a", "b"]).2 =
      [RemoteCall.createBatch "vs_a" ["a", "b"], RemoteCall.listFailed0 "vs_a",
       RemoteCall.deleteVsFile0 "vs_a" "b",
       RemoteCall.createBatch "vs_a" ["b"], RemoteCall.listFailed0 "vs_a"] := by
  have h := C4_retry_failed_only retryUploadEnv "vs_a" 2 1 1 ["a", "b"] ["b"]
    (by decide) (by decide) (by decide) (by decide) (by decide) (by decide)
    (by decide)
  exact ⟨h.1, by rw [h.2.1]; decide⟩

/-- C6: a run whose three attempts all complete their batch stages but
leave failed ids each time returns failure, and the failure count it
reports (line 310) is the total requested minus the running successful
count accumulated over all attempts. -/
theorem C6_exhausted (env : UploadEnv) (vsId : String)
    (total a0 a1 a2 : Nat) (ids F0 F1 : List String)
    (hids : ids ≠ [])
    (hb0 : (runBatches env vsId 0 (chunk100 ids) 0).1 = some a0)
    (hf0 : env.failedRes 0 = F0) (hF0 : F0 ≠ [])
    (hb1 : (runBatches env vsId 1 (chunk100 F0) 0).1 = some a1)
    (hf1 : env.failedRes 1 = F1) (hF1 : F1 ≠ [])
    (hb2 : (runBatches env vsId 2 (chunk100 F1) 0).1 = some a2)
    (hf2 : env.failedRes 2 ≠ []) :
    (uploadLoop env vsId total MAX_RETRIES 0 0 ids).1 =
      UploadOutcome.exhausted (total - (a0 + a1 + a2)) ∧
    UploadOutcome.toBool (uploadLoop env vsId total MAX_RETRIES 0 0 ids).1 =
      false := by
  cases ids with
  | nil => exact absurd rfl hids
  | cons x xs =>
    cases F0 with
    | nil => exact absurd rfl hF0
    | cons y ys =>
      cases F1 with
      | nil => exact absurd rfl hF1
      | cons z zs =>
        have hstep3 : uploadLoop env vsId total 1 (1 + 1) (a0 + a1) (z :: zs) =
            (UploadOutcome.exhausted (total - (a0 + a1 + a2)),
             (runBatches env vsId 2 (chunk100 (z :: zs)) 0).2 ++
               [RemoteCall.listFailed0 vsId]) := by
          show uploadLoop env vsId total (0 + 1) (1 + 1) (a0 + a1) (z :: zs) = _
          rw [uploadLoop_step env vsId total 0 (1 + 1) (a0 + a1) z zs a2 hb2]
          rw [if_neg (fun hand => hf2 hand.1)]
          rw [if_neg (by simp [MAX_RETRIES])]
        have hstep2 : uploadLoop env vsId total 2 1 a0 (y :: ys) =
            (UploadOutcome.exhausted (total - (a0 + a1 + a2)),
             (uploadLoop env vsId total 2 1 a0 (y :: ys)).2) := by
          show uploadLoop env vsId total (1 + 1) 1 a0 (y :: ys) = _
          rw [uploadLoop_step env vsId total 1 1 a0 y ys a1 hb1]
          rw [hf1]
          rw [if_neg (by simp)]
          rw [if_pos (by simp [MAX_RETRIES])]
          rw [hstep3]
        have hstep1 : (uploadLoop env vsId total (2 + 1) 0 0 (x :: xs)).1 =
            UploadOutcome.exhausted (total - (a0 + a1 + a2)) := by
          rw [uploadLoop_step env vsId total 2 0 0 x xs a0 hb0]
          rw [hf0]
          rw [if_neg (by simp)]
          rw [if_pos (by simp [MAX_RETRIES])]
          simp only [Nat.zero_add]
          rw [hstep2]
        have hM : MAX_RETRIES = 2 + 1 := rfl
        rw [hM, hstep1]
        exact ⟨rfl, rfl⟩

/-- Witness for `C6_exhausted`: one file persistently failing across all
three attempts; the reported failure count is 1 = total 1 minus
successful 0. -/
theorem C6_exhausted_witness :
    (uploadLoop persistFailUploadEnv "vs_a" 1 MAX_RETRIES 0 0 ["a"]).1 =
      UploadOutcome.exhausted 1 ∧
    UploadOutcome.toBool
      (uploadLoop persistFailUploadEnv "vs_a" 1 MAX_RETRIES 0 0 ["a"]).1 = false := by
  have h := C6_exhausted persistFailUploadEnv "vs_a" 1 0 0 0 ["a"] ["a"] ["a"]
    (by decide) (by decide) (by decide) (by decide) (by decide) (by decide)
    (by decide) (by decide) (by decide)
  simpa using h

/-- C7: if, in any attempt the loop enters, batches `0..k-1` poll to
`completed` but batch `k` polls to any other terminal status, the
operation returns `False` immediately: no further batch of that attempt
is submitted (the trace stops at batch `k` even though more batches
remain), no failed-file query or deletion happens, and no further attempt
is made. -/
theorem C7_batch_failure_aborts (env : UploadEnv) (vsId : String)
    (total fuel retry successful k : Nat) (ids : List String)
    (hfuel : 0 < fuel) (hids : ids ≠ [])
    (hall : ∀ i, i < k → (env.batchRes retry i).completed = true)
    (hfail : (env.batchRes retry k).completed = false)
    (hk : k < (chunk100 ids).length) :
    (uploadLoop env vsId total fuel retry successful ids).1 =
      UploadOutcome.batchFailed ∧
    UploadOutcome.toBool (uploadLoop env vsId total fuel retry successful ids).1 =
      false ∧
    (uploadLoop env vsId total fuel retry successful ids).2 =
      ((chunk100 ids).take (k + 1)).map (RemoteCall.createBatch vsId) := by
  cases fuel with
  | zero => omega
  | succ f =>
    cases ids with
    | nil => exact absurd rfl hids
    | cons x xs =>
      have hrb := runBatches_fail_trace env vsId retry k (chunk100 (x :: xs)) 0
        (fun i hi => by rw [Nat.zero_add]; exact hall i hi)
        (by rw [Nat.zero_add]; exact hfail)
        hk
      rw [uploadLoop.eq_3, hrb]
      exact ⟨rfl, rfl, rfl⟩

/-- Witness for `C7_batch_failure_aborts`: the very first batch polls to a
non-completed status and the single submission is the whole trace. -/
theorem C7_batch_failure_aborts_witness :
    (uploadLoop abortUploadEnv "vs_a" 1 MAX_RETRIES 0 0 ["a"]).1 =
      UploadOutcome.batchFailed ∧
    UploadOutcome.toBool
      (uploadLoop abortUploadEnv "vs_a" 1 MAX_RETRIES 0 0 ["a"]).1 = false ∧
    (uploadLoop abortUploadEnv "vs_a" 1 MAX_RETRIES 0 0 ["a"]).2 =
      [RemoteCall.createBatch "vs_a" ["a"]] := by
  have h := C7_batch_failure_aborts abortUploadEnv "vs_a" 1 MAX_RETRIES 0 0 0 ["a"]
    (by decide) (by decide) (fun i hi => absurd hi (Nat.not_lt_zero i)) (by decide)
    (by decide)
  exact ⟨h.1, h.2.1, by rw [h.2.2]; decide⟩

/-- C8: if any single upload stage entry carries an exception, the whole
operation re-raises (returns `Except.error`) and the trace holds only the
`files.create` calls — in particular no batch submission occurs; when
every upload succeeds the operation proceeds to the batched-indexing
retry loop on the collected ids. -/
theorem C8_upload_exception_aborts (uploads : List (String × Except Unit String))
    (env : UploadEnv) (vsId : String) :
    (uploads.any (fun p => isErr p.2) = true →
       (upload_file uploads env vsId).1 = Except.error () ∧
       (upload_file uploads env vsId).2 = (uploads.map fun _ => RemoteCall.createFile) ∧
       ∀ v bids, RemoteCall.createBatch v bids ∉ (upload_file uploads env vsId).2) ∧
    (uploads.any (fun p => isErr p.2) = false →
       (upload_file uploads env vsId).1 =
         Except.ok (uploadLoop env vsId (uploads.filterMap fun p => p.2.toOption).length
           MAX_RETRIES 0 0 (uploads.filterMap fun p => p.2.toOption)).1) := by
  constructor
  · intro h
    refine ⟨by simp [upload_file, h], by simp [upload_file, h], ?_⟩
    intro v bids hmem
    simp [upload_file, h, List.mem_map] at hmem
  · intro h
    simp [upload_file, h]

/-- Witness for `C8_upload_exception_aborts`: a single upload raising
aborts the operation with only its `files.create` call in the trace. -/
theorem C8_upload_exception_aborts_witness :
    (upload_file [("u", Except.error ())] trivialUploadEnv "vs_a").1 =
      Except.error () ∧
    (upload_file [("u", Except.error ())] trivialUploadEnv "vs_a").2 =
      [RemoteCall.createFile] := by
  have h := (C8_upload_exception_aborts [("u", Except.error ())]
    trivialUploadEnv "vs_a").1 (by decide)
  exact ⟨h.1, by rw [h.2.1]; rfl⟩

/- ====================== claims about empty_files ==================== -/

/-- C5 counterexample: a per-file deletion failure triggers the
destructive fallback, but since the forced store deletion reports
`deleted = False`, the reported success count stays at 0 of 1 — it is not
treated as "all files cleared" as the claim states. -/
theorem C5_counterexample :
    (empty_files delFailEmptyEnv).1 = EmptyOutcome.cleared 0 1 ∧
    RemoteCall.deleteVs "vs_a" ∈ (empty_files delFailEmptyEnv).2 ∧
    (0 : Nat) ≠ 1 := by
  refine ⟨by decide, by decide, by decide⟩

/-- C5 (amended): with discovery, listing, status retrieval, refresh and
store deletion all answering normally, if any listed file was
`in_progress`, any per-file deletion (from the store or of the backing
OpenAI file) failed, or the store was found expired, then the whole store
deletion is issued, and the reported success count is treated as all
files cleared exactly when that deletion reports success — otherwise it
stays at listed files minus failed store deletions; with no such trigger
the emptied store is kept (no store deletion is issued at all). -/
theorem C5_destructive_fallback (env : EmptyEnv) (vsId : String)
    (files : List VSFile) (status : String) (flag : Bool)
    (h1 : env.assistantVsIds = Except.ok (some [vsId]))
    (h2 : env.listVsFilesRes vsId = Except.ok files)
    (h3 : env.retrieveVsRes vsId = Except.ok status)
    (h4 : env.updateVsRes vsId = Except.ok ())
    (h5 : env.deleteVsRes vsId = Except.ok flag) :
    (((files.any fun f => decide (f.status = "in_progress")) ||
        !(deleteFilesLoop env vsId files).1.1.isEmpty ||
        !(deleteFilesLoop env vsId files).1.2.isEmpty ||
        decide (status = "expired")) = true →
      (empty_files env).1 =
        EmptyOutcome.cleared
          (if flag then files.length
           else files.length - (deleteFilesLoop env vsId files).1.1.length)
          files.length ∧
      RemoteCall.deleteVs vsId ∈ (empty_files env).2) ∧
    (((files.any fun f => decide (f.status = "in_progress")) ||
        !(deleteFilesLoop env vsId files).1.1.isEmpty ||
        !(deleteFilesLoop env vsId files).1.2.isEmpty ||
        decide (status = "expired")) = false →
      (empty_files env).1 =
        EmptyOutcome.cleared
          (files.length - (deleteFilesLoop env vsId files).1.1.length)
          files.length ∧
      ∀ v, RemoteCall.deleteVs v ∉ (empty_files env).2) := by
  have hdisc : get_vector_store_ids env = ([vsId], [RemoteCall.retrieveAssistant0]) := by
    unfold get_vector_store_ids
    rw [h1]
  by_cases hexp : status = "expired"
  · constructor
    · intro hT
      constructor
      · simp [empty_files, hdisc, deleteExtras, h2, h3, h4, h5, hT, hexp]
      · simp [empty_files, hdisc, deleteExtras, h2, h3, h4, h5, hT, hexp]
    · intro hT
      rw [hexp] at hT
      simp at hT
  · constructor
    · intro hT
      simp [hexp] at hT
      constructor
      · simp [empty_files, hdisc, deleteExtras, h2, h3, h4, h5, hT, hexp]
      · simp [empty_files, hdisc, deleteExtras, h2, h3, h4, h5, hT, hexp]
    · intro hT
      simp [hexp] at hT
      obtain ⟨⟨hA, hB⟩, hC⟩ := hT
      have hnoex : ¬∃ x ∈ files, x.status = "in_progress" := by
        intro hex
        obtain ⟨x, hx, hst⟩ := hex
        exact hA x hx hst
      constructor
      · simp [empty_files, hdisc, deleteExtras, h2, h3, h4, h5, hexp, hB, hC, hnoex]
      · intro v
        simp [empty_files, hdisc, deleteExtras, h2, h3, h4, h5, hexp, hB, hC, hnoex,
          deleteFilesLoop_no_deleteVs]

/-- Witness for `C5_destructive_fallback`: one `in_progress` file triggers
the destructive fallback; the store deletion succeeds, so the reported
count is all files (1 of 1). -/
theorem C5_destructive_fallback_witness :
    (empty_files processingEmptyEnv).1 = EmptyOutcome.cleared 1 1 ∧
    RemoteCall.deleteVs "vs_a" ∈ (empty_files processingEmptyEnv).2 := by
  have h := (C5_destructive_fallback processingEmptyEnv "vs_a"
    [{ id := "f1", status := "in_progress" }] "completed" true
    rfl rfl rfl rfl rfl).1 (by decide)
  simpa using h

/-- C9: on an assistant whose discovery yields no vector store,
`empty_files` returns success and its trace contains no mutating remote
call (no create, update or delete — only the assistant retrieval). -/
theorem C9_empty_files_frame (env : EmptyEnv)
    (h : (get_vector_store_ids env).1 = []) :
    (empty_files env).1 = EmptyOutcome.noIndexes ∧
    EmptyOutcome.toBool (empty_files env).1 = true ∧
    ∀ c ∈ (empty_files env).2, isMutation c = false := by
  rw [empty_files_no_ids env h]
  refine ⟨rfl, rfl, ?_⟩
  intro c hc
  simp only [List.mem_singleton] at hc
  rw [hc]
  rfl

/-- Witness for `C9_empty_files_frame`: an assistant with an empty
vector-store list. -/
theorem C9_empty_files_frame_witness :
    (get_vector_store_ids noIndexEmptyEnv).1 = [] ∧
    ((empty_files noIndexEmptyEnv).1 = EmptyOutcome.noIndexes ∧
     EmptyOutcome.toBool (empty_files noIndexEmptyEnv).1 = true ∧
     ∀ c ∈ (empty_files noIndexEmptyEnv).2, isMutation c = false) :=
  ⟨by decide, C9_empty_files_frame noIndexEmptyEnv (by decide)⟩

/-- C10: when retrieving the assistant raises, `get_vector_store_ids`
returns the empty list; consequently `empty_files` reports success
without issuing any mutating call, and `create_vs` creates a brand-new
vector store and attaches it to the assistant before delegating to
`upload_file` — even though the assistant may in fact already own one. -/
theorem C10_discovery_failure (env : EmptyEnv) (cenv : CreateEnv)
    (uploads : List (String × Except Unit String)) (uenv : UploadEnv) (newId : String)
    (hret : env.assistantVsIds = Except.error ())
    (hc : cenv.createVsRes = Except.ok newId)
    (hu : cenv.updateAssistantRes = Except.ok ()) :
    (get_vector_store_ids env).1 = [] ∧
    (empty_files env).1 = EmptyOutcome.noIndexes ∧
    EmptyOutcome.toBool (empty_files env).1 = true ∧
    (∀ c ∈ (empty_files env).2, isMutation c = false) ∧
    (create_vs env cenv uploads uenv).2 =
      [RemoteCall.retrieveAssistant0, RemoteCall.createVs0,
       RemoteCall.updateAssistant0 [newId]] ++ (upload_file uploads uenv newId).2 := by
  have hids : (get_vector_store_ids env).1 = [] := by
    unfold get_vector_store_ids
    rw [hret]
  have hef := empty_files_no_ids env hids
  refine ⟨hids, by rw [hef], by rw [hef]; rfl, ?_, ?_⟩
  · rw [hef]
    intro c hc2
    simp only [List.mem_singleton] at hc2
    rw [hc2]
    rfl
  · simp only [create_vs, hids, hc, hu, get_vector_store_ids_trace]
    rfl

/-- Witness for `C10_discovery_failure`: discovery raising, store creation
yielding `"vs_new"`, assistant update succeeding. -/
theorem C10_discovery_failure_witness :
    (get_vector_store_ids discFailEmptyEnv).1 = [] ∧
    (empty_files discFailEmptyEnv).1 = EmptyOutcome.noIndexes ∧
    EmptyOutcome.toBool (empty_files discFailEmptyEnv).1 = true ∧
    (∀ c ∈ (empty_files discFailEmptyEnv).2, isMutation c = false) ∧
    (create_vs discFailEmptyEnv okCreateEnv [] trivialUploadEnv).2 =
      [RemoteCall.retrieveAssistant0, RemoteCall.createVs0,
       RemoteCall.updateAssistant0 ["vs_new"]] ++
        (upload_file [] trivialUploadEnv "vs_new").2 :=
  C10_discovery_failure discFailEmptyEnv okCreateEnv [] trivialUploadEnv "vs_new"
    rfl rfl rfl
